import Mathlib

/-!
Shallow embedding of the page-classification-and-extraction core of the
print-server repository, together with theorems checking the frozen claims.

Source files embedded:
  - src/core/parsers/base.py        (PageResult dataclass, parser interface)
  - src/core/parsers/shopee_spx.py  (ShopeeSPXParser, _extract_shop_from_tu_den)
  - src/core/parsers/shopee_ghn.py  (ShopeeGHNParser)
  - src/core/parsers/tiktok_jt.py   (TikTokJTParser)
  - src/core/parsers/__init__.py    (PARSERS, dispatch_page)
  - src/scan_pdf.py                 (legacy monolithic scan_pdf_for_orders)

Modelling conventions:
  - Python strings are `List Char` (abbreviation `PyStr`).
  - pdfplumber word tokens are records with `text`, `x0`, `top`, `bottom`;
    float coordinates are modelled as rationals (every float is a rational,
    and the code only compares and adds them).
  - The handful of fixed regexes in the source are embedded as dedicated
    search functions.  Every `\s*` / `\s+` in those patterns is immediately
    followed by a piece that cannot match a whitespace character, so greedy
    repetition with backtracking collapses to "consume the maximal whitespace
    run"; the lazy capture of the sender-name pattern is embedded with its
    backtracking over the preceding whitespace run made explicit.
  - Python character predicates (`\s`, `\d`, `\w`, `str.upper`, `str.lower`)
    are modelled on the character repertoire that actually occurs in the
    embedded patterns and label texts: ASCII plus the Vietnamese letters used
    by the labels.  On characters outside that repertoire the case maps are
    the identity.
  - Exceptions of the legacy scanner are modelled with `Except PyExc`;
    `PyExc.unboundLocal` stands for `UnboundLocalError` and
    `PyExc.pageExtract` for an arbitrary exception thrown by page-level
    text/token extraction.
-/

/-- Python strings, modelled as lists of characters. -/
abbrev PyStr := List Char

/-- Whitespace in the sense of Python's `\s` / `str.isspace` / `str.split`:
ASCII whitespace plus the usual Unicode space characters. -/
def isPySpace (c : Char) : Bool :=
  [' ', '\t', '\n', '\r', '\x0b', '\x0c',
   '\x1c', '\x1d', '\x1e', '\x1f', '\u0085', ' ',
   ' ', ' ', ' ', ' ', ' ', ' ', ' ',
   ' ', ' ', ' ', ' ', ' ', ' ', ' ',
   ' ', ' ', '　'].contains c

/-- Lower-casing as used by `re.IGNORECASE` and `str.lower`, on the characters
occurring in the embedded patterns: ASCII letters plus the Vietnamese letters
of the label texts; identity elsewhere. -/
def pyLower (c : Char) : Char :=
  if 'A' ≤ c ∧ c ≤ 'Z' then Char.ofNat (c.toNat + 32)
  else
    match c with
    | 'Ã' => 'ã' | 'Ậ' => 'ậ' | 'Đ' => 'đ' | 'Ơ' => 'ơ' | 'À' => 'à'
    | 'Ư' => 'ư' | 'Ứ' => 'ứ' | 'Ì' => 'ì' | 'Ờ' => 'ờ' | 'Ử' => 'ử'
    | 'Ă' => 'ă' | 'Ố' => 'ố' | 'Ệ' => 'ệ' | 'Ễ' => 'ễ' | 'Ộ' => 'ộ'
    | _ => c

/-- Upper-casing as used by `str.upper`, inverse of `pyLower` on the same
repertoire; identity elsewhere. -/
def pyUpper (c : Char) : Char :=
  if 'a' ≤ c ∧ c ≤ 'z' then Char.ofNat (c.toNat - 32)
  else
    match c with
    | 'ã' => 'Ã' | 'ậ' => 'Ậ' | 'đ' => 'Đ' | 'ơ' => 'Ơ' | 'à' => 'À'
    | 'ư' => 'Ư' | 'ứ' => 'Ứ' | 'ì' => 'Ì' | 'ờ' => 'Ờ' | 'ử' => 'Ử'
    | 'ă' => 'Ă' | 'ố' => 'Ố' | 'ệ' => 'Ệ' | 'ễ' => 'Ễ' | 'ộ' => 'Ộ'
    | _ => c

/-- Case-insensitive single-character match (`re.IGNORECASE`). -/
def matchCI (p c : Char) : Bool := pyLower c = pyLower p

/-- Word characters in the sense of Python's `\w` (used by `\b`), on the
repertoire of this development: ASCII alphanumerics, underscore, and the
Vietnamese letters of the label texts. -/
def isPyWord (c : Char) : Bool :=
  c.isAlphanum || c = '_' ||
  ['ã', 'ậ', 'đ', 'ơ', 'à', 'ư', 'ứ', 'ì', 'ờ', 'ử', 'ă', 'ố', 'ệ', 'ễ', 'ộ',
   'Ã', 'Ậ', 'Đ', 'Ơ', 'À', 'Ư', 'Ứ', 'Ì', 'Ờ', 'Ử', 'Ă', 'Ố', 'Ệ', 'Ễ', 'Ộ'].contains c

/-- First list starts with the second (exact characters). -/
def startsWithL : PyStr → PyStr → Bool
  | _, [] => true
  | [], _ :: _ => false
  | c :: s, p :: ps => c = p && startsWithL s ps

/-- Python's substring test `pat in s`. -/
def containsSub (s pat : PyStr) : Bool :=
  match s with
  | [] => pat.isEmpty
  | _ :: t => startsWithL s pat || containsSub t pat

/-- Consume a case-insensitive literal from the front of the input, returning
the rest on success. -/
def stripCI : PyStr → PyStr → Option PyStr
  | [], s => some s
  | _ :: _, [] => none
  | p :: ps, c :: s => if matchCI p c then stripCI ps s else none

/-- First list starts with the second, case-insensitively. -/
def startsWithCI (s pat : PyStr) : Bool := (stripCI pat s).isSome

/-- Python's `str.strip()`: drop whitespace from both ends. -/
def pyStrip (s : PyStr) : PyStr :=
  ((s.dropWhile isPySpace).reverse.dropWhile isPySpace).reverse

/-- Helper of `pySplit`: `cur` is the reversed word being accumulated. -/
def pySplitAux (cur : PyStr) : PyStr → List PyStr
  | [] => if cur.isEmpty then [] else [cur.reverse]
  | c :: t =>
      if isPySpace c then
        if cur.isEmpty then pySplitAux [] t else cur.reverse :: pySplitAux [] t
      else pySplitAux (c :: cur) t

/-- Python's `str.split()` with no argument: split on whitespace runs,
producing no empty words. -/
def pySplit (s : PyStr) : List PyStr := pySplitAux [] s

/-- Python's `" ".join(ws)`. -/
def joinSpace : List PyStr → PyStr
  | [] => []
  | [w] => w
  | w :: v :: ws => w ++ ' ' :: joinSpace (v :: ws)

/-- Number of ASCII digit characters of a word (`sum(c.isdigit() for c in part)`;
the pages at hand only carry ASCII digits). -/
def digitCount (s : PyStr) : Nat := (s.filter Char.isDigit).length

/-- One item of a label pattern: a case-insensitive literal character, a
case-insensitive character class, or a greedy whitespace run `\s*`
(always followed in our patterns by an item that cannot match whitespace). -/
inductive LPat
  | ci (c : Char)
  | cls (cs : List Char)
  | ws

/-- Match a label pattern against the front of the input, returning the rest. -/
def matchLabel : List LPat → PyStr → Option PyStr
  | [], s => some s
  | LPat.ws :: ps, s => matchLabel ps (s.dropWhile isPySpace)
  | LPat.ci _ :: _, [] => none
  | LPat.ci c :: ps, d :: s => if matchCI c d then matchLabel ps s else none
  | LPat.cls _ :: _, [] => none
  | LPat.cls cs :: ps, d :: s =>
      if cs.any (fun c => matchCI c d) then matchLabel ps s else none

/-- Attempt `label` + capture `(\S+)` at the current position. -/
def tryCap (ps : List LPat) (s : PyStr) : Option PyStr :=
  match matchLabel ps s with
  | none => none
  | some rest =>
      let cap := rest.takeWhile (fun c => !isPySpace c)
      if cap.isEmpty then none else some cap

/-- Leftmost search for `label` + capture `(\S+)`, as `re.search` does for the
label patterns of the source (none of which can match the empty string). -/
def searchCap (ps : List LPat) : PyStr → Option PyStr
  | [] => none
  | c :: t =>
      match tryCap ps (c :: t) with
      | some cap => some cap
      | none => searchCap ps t

/-- Pattern `Mã\s*[vV]ận\s*[đĐ]ơn\s*:\s*` of `_RE_DELIVERY`
(shopee_spx.py, shopee_ghn.py and scan_pdf.py line 34), `re.IGNORECASE`. -/
def deliveryPat : List LPat :=
  [LPat.ci 'M', LPat.ci 'ã', LPat.ws, LPat.cls ['v'], LPat.ci 'ậ', LPat.ci 'n',
   LPat.ws, LPat.cls ['đ'], LPat.ci 'ơ', LPat.ci 'n', LPat.ws, LPat.ci ':', LPat.ws]

/-- Pattern `Mã\s*[đd]ơn\s*hàng\s*:\s*` of `_RE_ORDER`
(shopee_spx.py, shopee_ghn.py and scan_pdf.py line 58), `re.IGNORECASE`. -/
def orderVnPat : List LPat :=
  [LPat.ci 'M', LPat.ci 'ã', LPat.ws, LPat.cls ['đ', 'd'], LPat.ci 'ơ', LPat.ci 'n',
   LPat.ws, LPat.ci 'h', LPat.ci 'à', LPat.ci 'n', LPat.ci 'g', LPat.ws,
   LPat.ci ':', LPat.ws]

/-- Pattern `Order\s*ID\s*:\s*` of `_RE_ORDER` (tiktok_jt.py) and
scan_pdf.py line 58, `re.IGNORECASE`. -/
def orderIdPat : List LPat :=
  [LPat.ci 'O', LPat.ci 'r', LPat.ci 'd', LPat.ci 'e', LPat.ci 'r', LPat.ws,
   LPat.ci 'I', LPat.ci 'D', LPat.ws, LPat.ci ':', LPat.ws]

/-- Helper of `hasET`: after a candidate `E`, the rest must start with `T`
followed by a non-word character or the end of the string. -/
def afterE : PyStr → Bool
  | [] => false
  | d :: r2 =>
      d = 'T' &&
      (match r2 with
       | [] => true
       | e :: _ => !isPyWord e)

/-- Helper of `hasET`: scan with the word-character status of the previous
character (start of string counts as a non-word position). -/
def hasETAux : Bool → PyStr → Bool
  | _, [] => false
  | prevW, c :: rest =>
      (c = 'E' && !prevW && afterE rest) || hasETAux (isPyWord c) rest

/-- Search for `\bET\b` (`_RE_ET` of tiktok_jt.py, case-sensitive). -/
def hasET (s : PyStr) : Bool := hasETAux false s

/-- Lookahead `(?=Thành\s*phố)` (when `flex` is true, tiktok_jt.py) or
`(?=Thành phố)` (when `flex` is false, scan_pdf.py line 71), `re.IGNORECASE`. -/
def thanhPho (flex : Bool) (u : PyStr) : Bool :=
  match stripCI ['T', 'h', 'à', 'n', 'h'] u with
  | none => false
  | some rest =>
      if flex then startsWithCI (rest.dropWhile isPySpace) ['p', 'h', 'ố']
      else startsWithCI rest [' ', 'p', 'h', 'ố']

/-- Lookahead `(?=\n|\r|Căn|Số|Phường|Xã|Quận|Huyện|Thành phố|[0-9])` of the
sender-name patterns (`_RE_SHOP` of tiktok_jt.py with `Thành\s*phố`, and
scan_pdf.py line 71 with a literal space), `re.IGNORECASE`. -/
def lookStop (flex : Bool) (u : PyStr) : Bool :=
  match u with
  | [] => false
  | c :: _ =>
      c = '\n' || c = '\r' ||
      startsWithCI u ['C', 'ă', 'n'] ||
      startsWithCI u ['S', 'ố'] ||
      startsWithCI u ['P', 'h', 'ư', 'ờ', 'n', 'g'] ||
      startsWithCI u ['X', 'ã'] ||
      startsWithCI u ['Q', 'u', 'ậ', 'n'] ||
      startsWithCI u ['H', 'u', 'y', 'ệ', 'n'] ||
      thanhPho flex u ||
      c.isDigit

/-- Lazy capture `([^\n\r]+?)` followed by the stop lookahead: consume one
character at a time (never a line break) and stop at the first position where
the lookahead holds.  `acc` is the reversed capture so far. -/
def lazyCap (look : PyStr → Bool) (acc : PyStr) : PyStr → Option PyStr
  | [] => none
  | c :: rest =>
      if c = '\n' || c = '\r' then none
      else if look rest then some (c :: acc).reverse
      else lazyCap look (c :: acc) rest

/-- Backtracking over the whitespace run consumed by `\s*[\n\r\s]*` before the
lazy capture: try the maximal consumption `j` first, then shorter ones, as the
regex engine does (longer consumption has higher priority, and within one
consumption the lazy capture picks the shortest success). -/
def tryDrops (look : PyStr → Bool) (t : PyStr) : Nat → Option PyStr
  | 0 => lazyCap look [] t
  | j + 1 =>
      match lazyCap look [] (t.drop (j + 1)) with
      | some cap => some cap
      | none => tryDrops look t j

/-- Attempt the sender-name pattern
`Người\s+gửi\s*[\n\r\s]*([^\n\r]+?)(?=…)` at the current position.
`\s+` followed by `g` and `\s*[\n\r\s]*` followed by the capture collapse to
explicit whitespace-run handling (see `tryDrops`). -/
def matchNguoiGuiAt (look : PyStr → Bool) (s : PyStr) : Option PyStr :=
  match stripCI ['N', 'g', 'ư', 'ờ', 'i'] s with
  | none => none
  | some r1 =>
      if (r1.takeWhile isPySpace).isEmpty then none
      else
        match stripCI ['g', 'ử', 'i'] (r1.dropWhile isPySpace) with
        | none => none
        | some t => tryDrops look t (t.takeWhile isPySpace).length

/-- Leftmost search for the sender-name pattern. -/
def searchNguoiGui (look : PyStr → Bool) : PyStr → Option PyStr
  | [] => none
  | c :: t =>
      match matchNguoiGuiAt look (c :: t) with
      | some cap => some cap
      | none => searchNguoiGui look t

/-- One positioned word token as produced by pdfplumber's `extract_words`
(only the fields the source reads). -/
structure Word where
  text : PyStr
  x0 : ℚ
  top : ℚ
  bottom : ℚ
deriving DecidableEq

/-- PageResult dataclass of core/parsers/base.py. -/
structure PageResult where
  page_number : Nat
  order_sn : Option PyStr
  shop_name : Option PyStr
  platform : PyStr
  delivery_method : PyStr
  delivery_method_raw : PyStr
deriving DecidableEq

/-- Collection loop of `_extract_shop_from_tu_den` (shopee_spx.py lines 80-87)
and of scan_pdf.py lines 119-127: walk the tokens with the `found_line` flag,
collecting in-window left-column texts and stopping at an in-window
right-column token once something was collected. -/
def collectLoop (dx ty : ℚ) : List Word → Bool → List PyStr
  | [], _ => []
  | w :: ws, found =>
      if ty < w.top ∧ w.top < ty + 20 then
        if w.x0 < dx then w.text :: collectLoop dx ty ws true
        else if found then []
        else collectLoop dx ty ws found
      else collectLoop dx ty ws found

/-- Shared helper `_extract_shop_from_tu_den` of shopee_spx.py (lines 60-89):
anchor on the first token containing "Đến:" and the first containing "Từ:",
collect the line just below "Từ:" left of the "Đến:" column, and fall back to
"UNKNOWN_SHOP". -/
def extract_shop_from_tu_den (words : List Word) : PyStr :=
  let den_x0 := (words.find? (fun w => containsSub w.text ['Đ', 'ế', 'n', ':'])).map Word.x0
  let tu_y1 := (words.find? (fun w => containsSub w.text ['T', 'ừ', ':'])).map Word.bottom
  match den_x0, tu_y1 with
  | some dx, some ty =>
      let s := pyStrip (joinSpace (collectLoop dx ty words false))
      if s.isEmpty then ['U', 'N', 'K', 'N', 'O', 'W', 'N', '_', 'S', 'H', 'O', 'P'] else s
  | _, _ => ['U', 'N', 'K', 'N', 'O', 'W', 'N', '_', 'S', 'H', 'O', 'P']

/-- Sentinel `"UNKNOWN_SHOP"`. -/
def unknownShop : PyStr := ['U', 'N', 'K', 'N', 'O', 'W', 'N', '_', 'S', 'H', 'O', 'P']

/-- Word-keeping loop of `TikTokJTParser._extract_shop_name`
(tiktok_jt.py lines 61-68): skip empty words, stop (discarding the word and
everything after) at the first word whose digit ratio is at least one half. -/
def keepParts : List PyStr → List PyStr
  | [] => []
  | p :: ps =>
      if p.isEmpty then keepParts ps
      else if p.length ≤ 2 * digitCount p then []
      else p :: keepParts ps

/-- Method `TikTokJTParser._extract_shop_name` (tiktok_jt.py lines 54-68). -/
def tiktok_extract_shop_name (full_text : PyStr) : PyStr :=
  match searchNguoiGui (lookStop true) full_text with
  | none => unknownShop
  | some cap =>
      let raw := pyStrip cap
      let result := keepParts (pySplit raw)
      if result.isEmpty then raw else joinSpace result

/-- Parser interface of core/parsers/base.py.  The pdfplumber `page` handle is
omitted: no registered parser reads it. -/
structure BaseParser where
  can_handle : PyStr → List Word → Bool
  parse : Nat → PyStr → List Word → PageResult

/-- Method `ShopeeSPXParser.can_handle` (shopee_spx.py lines 24-26). -/
def shopeeSPX_can_handle (full_text : PyStr) (_words : List Word) : Bool :=
  match searchCap deliveryPat full_text with
  | some v => startsWithL (v.map pyUpper) ['S', 'P', 'X']
  | none => false

/-- Method `ShopeeSPXParser.parse` (shopee_spx.py lines 28-55). -/
def shopeeSPX_parse (page_number : Nat) (full_text : PyStr) (words : List Word) :
    PageResult :=
  let order_sn := searchCap orderVnPat full_text
  let shop_name := extract_shop_from_tu_den words
  let txt_upper := full_text.map pyUpper
  let raw : PyStr :=
    if containsSub txt_upper ['I', 'N', 'S', 'T', 'A', 'N', 'T'] ||
       containsSub txt_upper ['T', 'Ứ', 'C', ' ', 'T', 'H', 'Ì'] then
      ['S', 'P', 'X', ' ', 'I', 'n', 's', 't', 'a', 'n', 't']
    else if containsSub txt_upper ['N', 'H', 'A', 'N', 'H'] ||
            containsSub txt_upper ['E', 'X', 'P', 'R', 'E', 'S', 'S'] then
      ['S', 'P', 'X', ' ', 'E', 'x', 'p', 'r', 'e', 's', 's']
    else ['S', 'P', 'X']
  { page_number := page_number
    order_sn := order_sn
    shop_name := some shop_name
    platform := ['s', 'h', 'o', 'p', 'e', 'e']
    delivery_method := ['S', 'P', 'X']
    delivery_method_raw := raw }

/-- Instance `ShopeeSPXParser()` registered in PARSERS. -/
def ShopeeSPXParser : BaseParser := ⟨shopeeSPX_can_handle, shopeeSPX_parse⟩

/-- Method `ShopeeGHNParser.can_handle` (shopee_ghn.py lines 24-26). -/
def shopeeGHN_can_handle (full_text : PyStr) (_words : List Word) : Bool :=
  match searchCap deliveryPat full_text with
  | some v => startsWithL (v.map pyUpper) ['G', 'Y']
  | none => false

/-- Method `ShopeeGHNParser.parse` (shopee_ghn.py lines 28-42). -/
def shopeeGHN_parse (page_number : Nat) (full_text : PyStr) (words : List Word) :
    PageResult :=
  let order_sn := searchCap orderVnPat full_text
  let shop_name := extract_shop_from_tu_den words
  { page_number := page_number
    order_sn := order_sn
    shop_name := some shop_name
    platform := ['s', 'h', 'o', 'p', 'e', 'e']
    delivery_method := ['G', 'H', 'N']
    delivery_method_raw := ['G', 'i', 'a', 'o', ' ', 'H', 'à', 'n', 'g', ' ', 'N', 'h', 'a', 'n', 'h'] }

/-- Instance `ShopeeGHNParser()` registered in PARSERS. -/
def ShopeeGHNParser : BaseParser := ⟨shopeeGHN_can_handle, shopeeGHN_parse⟩

/-- Method `TikTokJTParser.can_handle` (tiktok_jt.py lines 30-33): the page
must contain "J&T" or "J & T" and a standalone word "ET". -/
def tiktokJT_can_handle (full_text : PyStr) (_words : List Word) : Bool :=
  (containsSub full_text ['J', '&', 'T'] ||
   containsSub full_text ['J', ' ', '&', ' ', 'T']) &&
  hasET full_text

/-- Method `TikTokJTParser.parse` (tiktok_jt.py lines 35-52). -/
def tiktokJT_parse (page_number : Nat) (full_text : PyStr) (_words : List Word) :
    PageResult :=
  let order_sn := searchCap orderIdPat full_text
  let shop_name := tiktok_extract_shop_name full_text
  { page_number := page_number
    order_sn := order_sn
    shop_name := some shop_name
    platform := ['t', 'i', 'k', 't', 'o', 'k']
    delivery_method := ['J', 'T']
    delivery_method_raw := ['J', '&', 'T', ' ', 'E', 'x', 'p', 'r', 'e', 's', 's'] }

/-- Instance `TikTokJTParser()` registered in PARSERS. -/
def TikTokJTParser : BaseParser := ⟨tiktokJT_can_handle, tiktokJT_parse⟩

/-- Priority-ordered parser registry of core/parsers/__init__.py. -/
def PARSERS : List BaseParser := [TikTokJTParser, ShopeeSPXParser, ShopeeGHNParser]

/-- Dispatch loop of `dispatch_page` over an explicit parser list. -/
def dispatchAux : List BaseParser → Nat → PyStr → List Word → Option PageResult
  | [], _, _, _ => none
  | p :: ps, n, ft, ws =>
      if p.can_handle ft ws then some (p.parse n ft ws) else dispatchAux ps n ft ws

/-- Function `dispatch_page` of core/parsers/__init__.py (lines 31-45): try
each parser of PARSERS in order, return the first match's parse result, and
`none` when no parser matches. -/
def dispatch_page (page_number : Nat) (full_text : PyStr) (words : List Word) :
    Option PageResult :=
  dispatchAux PARSERS page_number full_text words

/-- Exceptions of the legacy scanner: `UnboundLocalError` raised by reading
the unassigned local `delivery_method`, and an arbitrary exception raised by
page-level text/token extraction. -/
inductive PyExc
  | unboundLocal
  | pageExtract
deriving DecidableEq

/-- One pdfplumber page, reduced to the two extraction calls the scanner
makes.  `extract_text` may return no text (modelled `none`, the code then
substitutes the empty string) and either call may throw. -/
structure Page where
  extract_text : Except PyExc (Option PyStr)
  extract_words : Except PyExc (List Word)

/-- One row of the DataFrame built by `scan_pdf_for_orders`
(scan_pdf.py lines 137-144); `platform` is always `None` there. -/
structure Row where
  page : Nat
  order_sn : PyStr
  shop_name : PyStr
  platform : Option PyStr
  delivery_method : PyStr
  delivery_method_raw : PyStr
deriving DecidableEq

/-- Filter loop of scan_pdf.py lines 79-86: keep a word when it is empty or
less than half digits, stop (discarding the word and the rest) otherwise. -/
def scanFilterParts : List PyStr → List PyStr
  | [] => []
  | p :: ps =>
      if p.isEmpty || 2 * digitCount p < p.length then p :: scanFilterParts ps
      else []

/-- Sender-name extraction of the JT branch of scan_pdf.py (lines 68-90):
same sender pattern as the TikTok parser but with a literal space in
`Thành phố`, keeping empty words, and falling back to the raw capture or to
`["UNKNOWN_SHOP"]`.  Returns the `shop_words` list. -/
def scanJTShopWords (full_text : PyStr) : List PyStr :=
  match searchNguoiGui (lookStop false) full_text with
  | none => [unknownShop]
  | some cap =>
      let raw := pyStrip cap
      let filtered := scanFilterParts (pySplit raw)
      if filtered.isEmpty then [raw] else filtered

/-- Python truthiness of an optional float (`if den_x0 and tu_y1:` in
scan_pdf.py line 119): `None` and `0.0` are falsy. -/
def pyTruthy (o : Option ℚ) : Bool :=
  match o with
  | none => false
  | some x => x ≠ 0

/-- Loop body of `scan_pdf_for_orders` (scan_pdf.py lines 33-144) for one
page, without the page number.  `delivery_method` is a function-level local
of the Python source: it persists across iterations of the page loop, so the
body receives its incoming value `dm0` (`none` while it has never been
assigned) and returns its outgoing value next to the fields of the appended
row (`order_sn`, `shop_name`, `delivery_method`) — `none` in the row slot
when no row is appended — or `Except.error` when the body raises.  The
if/elif chain reassigns the local in every branch except the matched-label
fall-through (a captured value starting with none of the four prefixes),
which leaves the incoming value in place; reading the local while it is still
unassigned raises `UnboundLocalError`.  The debug `print` calls and the
reassignment of `delivery_id` in the J&T branch (line 53, which only feeds a
`print`) are not modelled. -/
def scanPageCore (dm0 : Option PyStr) (pg : Page) :
    Except PyExc (Option PyStr × Option (PyStr × PyStr × PyStr)) := do
  let otext ← pg.extract_text
  let full_text := otext.getD []
  let delivery_id := searchCap deliveryPat full_text
  let dmOpt : Option PyStr :=
    match delivery_id with
    | some v =>
        if startsWithL v ['S', 'P', 'X'] then some ['S', 'P', 'X']
        else if startsWithL v ['G', 'Y'] then some ['G', 'H', 'N']
        else if startsWithL v ['S', 'H', 'O', 'P', 'E', 'E', 'V', 'T', 'P', 'V', 'N'] then
          some ['V', 'T', 'P']
        else if startsWithL v ['E', 'K'] then some ['V', 'N', 'P']
        else dm0
    | none =>
        if containsSub full_text ['J', '&', 'T'] ||
           containsSub full_text ['J', ' ', '&', ' ', 'T'] then
          some ['J', 'T']
        else some ['H', 'T']
  let order_id :=
    match searchCap orderVnPat full_text with
    | some v => some v
    | none => searchCap orderIdPat full_text
  let words ← pg.extract_words
  let delivery_method ←
    match dmOpt with
    | some d => Except.ok d
    | none => Except.error PyExc.unboundLocal
  let shop_words0 : List PyStr :=
    if delivery_method = ['J', 'T'] then scanJTShopWords full_text else []
  let den_x0 : Option ℚ :=
    if delivery_method = ['J', 'T'] then none
    else if delivery_method = ['V', 'T', 'P'] then
      (words.find? (fun w => containsSub w.text ['Đ', 'ế', 'n'])).map Word.x0
    else (words.find? (fun w => containsSub w.text ['Đ', 'ế', 'n', ':'])).map Word.x0
  let tu_y1 : Option ℚ :=
    if delivery_method = ['J', 'T'] then none
    else if delivery_method = ['V', 'T', 'P'] then
      (words.find? (fun w => containsSub w.text ['T', 'ừ'])).map Word.bottom
    else (words.find? (fun w => containsSub w.text ['T', 'ừ', ':'])).map Word.bottom
  let shop_words : List PyStr :=
    if pyTruthy den_x0 && pyTruthy tu_y1 then
      shop_words0 ++ collectLoop ((den_x0.getD 0)) ((tu_y1.getD 0)) words false
    else if delivery_method ≠ ['J', 'T'] && shop_words0.isEmpty then
      shop_words0 ++ [unknownShop]
    else shop_words0
  let shop_name := pyStrip (joinSpace shop_words)
  match order_id with
  | some o => return (some delivery_method, some (o, shop_name, delivery_method))
  | none => return (some delivery_method, none)

/-- Page loop of `scan_pdf_for_orders`: pages are numbered from 1, rows are
appended in page order, the loop-carried `delivery_method` local is threaded
from each iteration to the next, and any exception of the loop body
propagates, discarding everything. -/
def scanGo (i : Nat) (dm0 : Option PyStr) : List Page → Except PyExc (List Row)
  | [] => Except.ok []
  | pg :: pgs =>
      match scanPageCore dm0 pg with
      | Except.error e => Except.error e
      | Except.ok (dm1, none) => scanGo (i + 1) dm1 pgs
      | Except.ok (dm1, some (o, s, d)) =>
          (scanGo (i + 1) dm1 pgs).map
            (fun rs =>
              { page := i, order_sn := o, shop_name := s, platform := none,
                delivery_method := d, delivery_method_raw := d } :: rs)

/-- Function `scan_pdf_for_orders` of scan_pdf.py (lines 21-146), the legacy
monolithic scanner, as a function of the list of pages of the opened PDF.
The `delivery_method` local starts out unassigned.  Its only output is the
row list (the returned DataFrame); there is no diagnostics collection. -/
def scan_pdf_for_orders (pages : List Page) : Except PyExc (List Row) :=
  scanGo 1 none pages

/-- Claim-side predicate (C5): token in the vertical window below the "Từ:"
anchor and strictly left of the "Đến:" column. -/
def inWinLeft (dx ty : ℚ) (w : Word) : Bool :=
  decide (ty < w.top ∧ w.top < ty + 20 ∧ w.x0 < dx)

/-- Claim-side predicate (C5): token in the vertical window at or right of
the "Đến:" column (a collection stopper once something was collected). -/
def inWinRight (dx ty : ℚ) (w : Word) : Bool :=
  decide (ty < w.top ∧ w.top < ty + 20 ∧ dx ≤ w.x0)

/-- Claim-side collection (C5), stated declaratively from the claim's words:
nothing is collected before the first in-window left-column token; from that
token on, every in-window left-column token is collected in list order, up to
(excluding) the first in-window token whose left edge reaches the "Đến:"
column. -/
def specCollectTexts (dx ty : ℚ) (ws : List Word) : List PyStr :=
  match ws.dropWhile (fun w => !inWinLeft dx ty w) with
  | [] => []
  | w :: rest =>
      w.text ::
        ((rest.takeWhile (fun v => !inWinRight dx ty v)).filter
          (inWinLeft dx ty)).map Word.text

/-- Claim-side restatement (C5) of the shared shop-name extractor: anchors
from the first tokens containing "Đến:" and "Từ:", declarative collection,
space-join, trim, and the "UNKNOWN_SHOP" sentinel when an anchor is missing
or the trimmed join is empty. -/
def specShopFromTuDen (words : List Word) : PyStr :=
  match (words.find? (fun w => containsSub w.text "Đến:".toList)).map Word.x0,
        (words.find? (fun w => containsSub w.text "Từ:".toList)).map Word.bottom with
  | some dx, some ty =>
      let s := pyStrip (joinSpace (specCollectTexts dx ty words))
      if s.isEmpty then "UNKNOWN_SHOP".toList else s
  | _, _ => "UNKNOWN_SHOP".toList

lemma collectLoop_found (dx ty : ℚ) :
    ∀ ws : List Word,
      collectLoop dx ty ws true =
        ((ws.takeWhile (fun v => !inWinRight dx ty v)).filter
          (inWinLeft dx ty)).map Word.text := by
  intro ws
  induction ws with
  | nil => simp [collectLoop]
  | cons w ws ih =>
      by_cases h1 : ty < w.top ∧ w.top < ty + 20
      · by_cases h2 : w.x0 < dx
        · have hl : inWinLeft dx ty w = true := by
            simp [inWinLeft, h1.1, h1.2, h2]
          have hr : inWinRight dx ty w = false := by
            simp [inWinRight, h1.1, h1.2]
            exact h2
          simp [collectLoop, h1, h2, List.takeWhile_cons, hr, List.filter_cons, hl, ih]
        · have hr : inWinRight dx ty w = true := by
            simp [inWinRight, h1.1, h1.2]
            exact le_of_not_lt h2
          simp [collectLoop, h1, h2, List.takeWhile_cons, hr]
      · have hl : inWinLeft dx ty w = false := by
          simp only [inWinLeft, decide_eq_false_iff_not]
          intro h
          exact h1 ⟨h.1, h.2.1⟩
        have hr : inWinRight dx ty w = false := by
          simp only [inWinRight, decide_eq_false_iff_not]
          intro h
          exact h1 ⟨h.1, h.2.1⟩
        simp [collectLoop, h1, List.takeWhile_cons, hr, List.filter_cons, hl, ih]

lemma collectLoop_start (dx ty : ℚ) :
    ∀ ws : List Word, collectLoop dx ty ws false = specCollectTexts dx ty ws := by
  intro ws
  induction ws with
  | nil => simp [collectLoop, specCollectTexts]
  | cons w ws ih =>
      by_cases h1 : ty < w.top ∧ w.top < ty + 20
      · by_cases h2 : w.x0 < dx
        · have hl : inWinLeft dx ty w = true := by
            simp [inWinLeft, h1.1, h1.2, h2]
          simp [collectLoop, h1, h2, specCollectTexts, List.dropWhile_cons, hl,
            collectLoop_found]
        · have hl : inWinLeft dx ty w = false := by
            simp only [inWinLeft, decide_eq_false_iff_not]
            intro h
            exact h2 h.2.2
          simp [collectLoop, h1, h2, specCollectTexts, List.dropWhile_cons, hl]
          simpa [specCollectTexts] using ih
      · have hl : inWinLeft dx ty w = false := by
          simp only [inWinLeft, decide_eq_false_iff_not]
          intro h
          exact h1 ⟨h.1, h.2.1⟩
        simp [collectLoop, h1, specCollectTexts, List.dropWhile_cons, hl]
        simpa [specCollectTexts] using ih

/-- C5: for every token list, the shared shop-name extractor anchors on the
first token containing "Đến:" (taking its x0) and the first containing "Từ:"
(taking its bottom); with both anchors it collects, in list order, every token
with tu_y1 < top < tu_y1 + 20 and x0 strictly less than den_x0, stopping at
the first token in that window with x0 ≥ den_x0 seen after at least one
collection; it returns the space-joined trimmed texts, and "UNKNOWN_SHOP"
when an anchor is missing or the joined result is empty. -/
theorem C5_shop_from_tu_den_spec (words : List Word) :
    extract_shop_from_tu_den words = specShopFromTuDen words := by
  unfold extract_shop_from_tu_den specShopFromTuDen
  cases hd : (words.find? (fun w => containsSub w.text ['Đ', 'ế', 'n', ':'])).map Word.x0 with
  | none => simp [hd, show "Đến:".toList = ['Đ', 'ế', 'n', ':'] from rfl]
  | some dx =>
      cases ht : (words.find? (fun w => containsSub w.text ['T', 'ừ', ':'])).map Word.bottom with
      | none =>
          simp [hd, ht, show "Đến:".toList = ['Đ', 'ế', 'n', ':'] from rfl,
            show "Từ:".toList = ['T', 'ừ', ':'] from rfl]
      | some ty =>
          simp [hd, ht, show "Đến:".toList = ['Đ', 'ế', 'n', ':'] from rfl,
            show "Từ:".toList = ['T', 'ừ', ':'] from rfl,
            show "UNKNOWN_SHOP".toList = unknownShop from rfl,
            unknownShop, collectLoop_start]

/-- Claim-side predicate (C6): the page text contains the pattern
case-insensitively (realised, as `str.upper` containment, over the modelled
character repertoire). -/
def containsCIspec (s pat : PyStr) : Bool :=
  containsSub (s.map pyUpper) (pat.map pyUpper)

/-- Claim-side determination (C6) of the SPX sub-variant raw text. -/
def specRawSPX (full_text : PyStr) : PyStr :=
  if containsCIspec full_text "instant".toList ||
     containsCIspec full_text "tức thì".toList then "SPX Instant".toList
  else if containsCIspec full_text "nhanh".toList ||
          containsCIspec full_text "express".toList then "SPX Express".toList
  else "SPX".toList

/-- C6: for every page parsed by the Shopee-SPX recognizer, the raw delivery
text is determined case-insensitively from the full page text: "SPX Instant"
when it contains "instant" or "tức thì", else "SPX Express" when it contains
"nhanh" or "express", else "SPX"; the normalized method is always "SPX" and
the platform always "shopee". -/
theorem C6_spx_subvariant_raw (n : Nat) (full_text : PyStr) (words : List Word) :
    (ShopeeSPXParser.parse n full_text words).delivery_method_raw = specRawSPX full_text ∧
    (ShopeeSPXParser.parse n full_text words).delivery_method = "SPX".toList ∧
    (ShopeeSPXParser.parse n full_text words).platform = "shopee".toList := by
  have h1 : "instant".toList.map pyUpper = ['I', 'N', 'S', 'T', 'A', 'N', 'T'] := by decide
  have h2 : "tức thì".toList.map pyUpper = ['T', 'Ứ', 'C', ' ', 'T', 'H', 'Ì'] := by decide
  have h3 : "nhanh".toList.map pyUpper = ['N', 'H', 'A', 'N', 'H'] := by decide
  have h4 : "express".toList.map pyUpper = ['E', 'X', 'P', 'R', 'E', 'S', 'S'] := by decide
  refine ⟨?_, rfl, rfl⟩
  show (shopeeSPX_parse n full_text words).delivery_method_raw = specRawSPX full_text
  unfold shopeeSPX_parse specRawSPX containsCIspec
  rw [h1, h2, h3, h4]
  rfl

/-- Claim-side restatement (C7) of the TikTok sender-name extraction: on a
successful capture, strip it, split it on whitespace, keep the longest prefix
of words whose digit-character ratio is below one half, fall back to the raw
stripped capture when no word survives, and fall back to "UNKNOWN_SHOP" when
the pattern does not match at all. -/
def specShopNameTT (full_text : PyStr) : PyStr :=
  match searchNguoiGui (lookStop true) full_text with
  | none => "UNKNOWN_SHOP".toList
  | some cap =>
      let raw := pyStrip cap
      let kept := (pySplit raw).takeWhile (fun p => decide (2 * digitCount p < p.length))
      if kept.isEmpty then raw else joinSpace kept

lemma pySplitAux_ne_nil : ∀ (s : PyStr) (cur : PyStr), ∀ p ∈ pySplitAux cur s, p ≠ [] := by
  intro s
  induction s with
  | nil =>
      intro cur p hp
      by_cases hc : cur.isEmpty
      · simp [pySplitAux, hc] at hp
      · simp [pySplitAux, hc] at hp
        subst hp
        simpa [List.isEmpty_iff] using hc
  | cons c t ih =>
      intro cur p hp
      by_cases hs : isPySpace c
      · by_cases hc : cur.isEmpty
        · exact ih [] p (by simpa [pySplitAux, hs, hc] using hp)
        · simp [pySplitAux, hs, hc] at hp
          rcases hp with hp | hp
          · subst hp
            simpa [List.isEmpty_iff] using hc
          · exact ih [] p hp
      · exact ih (c :: cur) p (by simpa [pySplitAux, hs] using hp)

lemma keepParts_eq_takeWhile :
    ∀ parts : List PyStr, (∀ p ∈ parts, p ≠ []) →
      keepParts parts = parts.takeWhile (fun p => decide (2 * digitCount p < p.length)) := by
  intro parts
  induction parts with
  | nil => intro _; simp [keepParts]
  | cons p ps ih =>
      intro h
      have hp : p ≠ [] := h p (by simp)
      have hpe : p.isEmpty = false := by simpa [List.isEmpty_iff] using hp
      by_cases hd : p.length ≤ 2 * digitCount p
      · have : (decide (2 * digitCount p < p.length)) = false := by
          simpa using not_lt_of_le hd
        simp [keepParts, hpe, hd, List.takeWhile_cons, this]
      · have hlt : 2 * digitCount p < p.length := lt_of_not_le hd
        have : (decide (2 * digitCount p < p.length)) = true := by simpa using hlt
        simp [keepParts, hpe, hd, List.takeWhile_cons, this]
        exact ih (fun q hq => h q (by simp [hq]))

/-- C7: for every page text, the TikTok–J&T shop-name extraction searches the
sender pattern anchored on "Người gửi" (capturing up to the first line break
or address keyword/digit); it splits the stripped capture on whitespace and
keeps words left-to-right until the first word whose digit ratio reaches one
half, discarding that word and the rest; if no word survives it returns the
raw stripped capture, and if the pattern does not match it returns
"UNKNOWN_SHOP"; the parser's shop_name field is exactly this value. -/
theorem C7_tiktok_shop_name (n : Nat) (full_text : PyStr) (words : List Word) :
    tiktok_extract_shop_name full_text = specShopNameTT full_text ∧
    (TikTokJTParser.parse n full_text words).shop_name =
      some (specShopNameTT full_text) := by
  have key : tiktok_extract_shop_name full_text = specShopNameTT full_text := by
    unfold tiktok_extract_shop_name specShopNameTT
    cases hs : searchNguoiGui (lookStop true) full_text with
    | none => rfl
    | some cap =>
        simp only
        rw [keepParts_eq_takeWhile (pySplit (pyStrip cap))
          (fun p hp => pySplitAux_ne_nil (pyStrip cap) [] p hp)]
  exact ⟨key, by simpa [TikTokJTParser, tiktokJT_parse] using key⟩

lemma dispatchAux_all_false (n : Nat) (ft : PyStr) (ws : List Word) :
    ∀ ps : List BaseParser, (∀ p ∈ ps, p.can_handle ft ws = false) →
      dispatchAux ps n ft ws = none := by
  intro ps
  induction ps with
  | nil => intro _; rfl
  | cons p ps ih =>
      intro h
      have hp := h p (by simp)
      simp [dispatchAux, hp]
      exact ih (fun q hq => h q (by simp [hq]))

lemma dispatchAux_first (n : Nat) (ft : PyStr) (ws : List Word) :
    ∀ (ps1 : List BaseParser) (p : BaseParser) (ps2 : List BaseParser),
      (∀ q ∈ ps1, q.can_handle ft ws = false) → p.can_handle ft ws = true →
      dispatchAux (ps1 ++ p :: ps2) n ft ws = some (p.parse n ft ws) := by
  intro ps1
  induction ps1 with
  | nil =>
      intro p ps2 _ hp
      simp [dispatchAux, hp]
  | cons q ps1 ih =>
      intro p ps2 h hp
      have hq := h q (by simp)
      simp [dispatchAux, hq]
      exact ih p ps2 (fun q' hq' => h q' (by simp [hq'])) hp

/-- C1: for every page input, dispatch_page returns the parse result of the
earliest parser in PARSERS whose can_handle holds, and none when no parser's
can_handle holds; hence at most one recognizer claims a page and, when two
parsers both match, the one positioned earlier wins. -/
theorem C1_dispatch_first_match (n : Nat) (ft : PyStr) (ws : List Word) :
    ((∀ p ∈ PARSERS, p.can_handle ft ws = false) → dispatch_page n ft ws = none) ∧
    (∀ (ps1 : List BaseParser) (p : BaseParser) (ps2 : List BaseParser),
      PARSERS = ps1 ++ p :: ps2 →
      (∀ q ∈ ps1, q.can_handle ft ws = false) →
      p.can_handle ft ws = true →
      dispatch_page n ft ws = some (p.parse n ft ws)) := by
  constructor
  · intro h
    exact dispatchAux_all_false n ft ws PARSERS h
  · intro ps1 p ps2 hsplit h1 hp
    unfold dispatch_page
    rw [hsplit]
    exact dispatchAux_first n ft ws ps1 p ps2 h1 hp

/-- Concrete page text matched by no registered parser. -/
def ftNoMatch : PyStr := "hello world".toList

/-- Concrete page text matched by the Shopee-SPX parser (second in the chain)
and by no earlier parser. -/
def ftSPX : PyStr := "Mã vận đơn: SPX1".toList

/-- Witness for C1: the no-match case on a concrete unmatched text, and the
earliest-match case on a concrete text handled by the second parser of the
chain while the first refuses it. -/
theorem C1_dispatch_first_match_witness :
    dispatch_page 1 ftNoMatch [] = none ∧
    dispatch_page 1 ftSPX [] = some (ShopeeSPXParser.parse 1 ftSPX []) := by
  constructor
  · exact (C1_dispatch_first_match 1 ftNoMatch []).1 (by decide)
  · exact (C1_dispatch_first_match 1 ftSPX []).2 [TikTokJTParser] ShopeeSPXParser
      [ShopeeGHNParser] rfl (by decide) (by decide)

/-- C8: every PageResult produced by the recognizer chain carries a normalized
delivery method from the closed registered set, with the matching platform:
SPX/shopee, GHN/shopee or JT/tiktok — never a raw value from the page text. -/
theorem C8_closed_method_set (n : Nat) (ft : PyStr) (ws : List Word) (r : PageResult)
    (h : dispatch_page n ft ws = some r) :
    (r.delivery_method = "SPX".toList ∧ r.platform = "shopee".toList) ∨
    (r.delivery_method = "GHN".toList ∧ r.platform = "shopee".toList) ∨
    (r.delivery_method = "JT".toList ∧ r.platform = "tiktok".toList) := by
  by_cases h1 : TikTokJTParser.can_handle ft ws
  · simp [dispatch_page, PARSERS, dispatchAux, h1] at h
    subst h
    right; right
    exact ⟨rfl, rfl⟩
  · by_cases h2 : ShopeeSPXParser.can_handle ft ws
    · simp [dispatch_page, PARSERS, dispatchAux, h1, h2] at h
      subst h
      left
      exact ⟨rfl, rfl⟩
    · by_cases h3 : ShopeeGHNParser.can_handle ft ws
      · simp [dispatch_page, PARSERS, dispatchAux, h1, h2, h3] at h
        subst h
        right; left
        exact ⟨rfl, rfl⟩
      · simp [dispatch_page, PARSERS, dispatchAux, h1, h2, h3] at h

/-- Witness for C8: applied to a concrete SPX page whose dispatch result is
computed explicitly. -/
theorem C8_closed_method_set_witness :
    ((⟨1, none, some "UNKNOWN_SHOP".toList, "shopee".toList, "SPX".toList,
        "SPX".toList⟩ : PageResult).delivery_method = "SPX".toList ∧
     (⟨1, none, some "UNKNOWN_SHOP".toList, "shopee".toList, "SPX".toList,
        "SPX".toList⟩ : PageResult).platform = "shopee".toList) ∨
    ((⟨1, none, some "UNKNOWN_SHOP".toList, "shopee".toList, "SPX".toList,
        "SPX".toList⟩ : PageResult).delivery_method = "GHN".toList ∧
     (⟨1, none, some "UNKNOWN_SHOP".toList, "shopee".toList, "SPX".toList,
        "SPX".toList⟩ : PageResult).platform = "shopee".toList) ∨
    ((⟨1, none, some "UNKNOWN_SHOP".toList, "shopee".toList, "SPX".toList,
        "SPX".toList⟩ : PageResult).delivery_method = "JT".toList ∧
     (⟨1, none, some "UNKNOWN_SHOP".toList, "shopee".toList, "SPX".toList,
        "SPX".toList⟩ : PageResult).platform = "tiktok".toList) :=
  C8_closed_method_set 1 ftSPX []
    ⟨1, none, some "UNKNOWN_SHOP".toList, "shopee".toList, "SPX".toList, "SPX".toList⟩
    (by decide)

/-- C9: for each registered recognizer, on any input its can_handle accepts,
parse returns normally with order_sn none when the respective order-identifier
pattern is absent from the page text. -/
theorem C9_parse_tolerates_missing_order (n : Nat) (ft : PyStr) (ws : List Word) :
    (ShopeeSPXParser.can_handle ft ws = true → searchCap orderVnPat ft = none →
      (ShopeeSPXParser.parse n ft ws).order_sn = none) ∧
    (ShopeeGHNParser.can_handle ft ws = true → searchCap orderVnPat ft = none →
      (ShopeeGHNParser.parse n ft ws).order_sn = none) ∧
    (TikTokJTParser.can_handle ft ws = true → searchCap orderIdPat ft = none →
      (TikTokJTParser.parse n ft ws).order_sn = none) := by
  refine ⟨fun _ h => ?_, fun _ h => ?_, fun _ h => ?_⟩
  · show (shopeeSPX_parse n ft ws).order_sn = none
    simp [shopeeSPX_parse, h]
  · show (shopeeGHN_parse n ft ws).order_sn = none
    simp [shopeeGHN_parse, h]
  · show (tiktokJT_parse n ft ws).order_sn = none
    simp [tiktokJT_parse, h]

/-- Concrete page text accepted by the GHN parser with no order label. -/
def ftGHN : PyStr := "Mã vận đơn: GY9988".toList

/-- Concrete page text accepted by the TikTok parser with no order label. -/
def ftJT : PyStr := "J&T ET giao hàng".toList

/-- Witness for C9: each of the three recognizers applied to a concrete page
it accepts that lacks the order-identifier label. -/
theorem C9_parse_tolerates_missing_order_witness :
    (ShopeeSPXParser.parse 1 ftSPX []).order_sn = none ∧
    (ShopeeGHNParser.parse 1 ftGHN []).order_sn = none ∧
    (TikTokJTParser.parse 1 ftJT []).order_sn = none :=
  ⟨(C9_parse_tolerates_missing_order 1 ftSPX []).1 (by decide) (by decide),
   (C9_parse_tolerates_missing_order 1 ftGHN []).2.1 (by decide) (by decide),
   (C9_parse_tolerates_missing_order 1 ftJT []).2.2 (by decide) (by decide)⟩

lemma startsWithL_iff : ∀ (pat s : PyStr), startsWithL s pat = true ↔ ∃ v, s = pat ++ v := by
  intro pat
  induction pat with
  | nil => intro s; simp [startsWithL]
  | cons p ps ih =>
      intro s
      cases s with
      | nil => simp [startsWithL]
      | cons c t =>
          simp only [startsWithL, Bool.and_eq_true, decide_eq_true_eq, ih t]
          constructor
          · rintro ⟨rfl, v, rfl⟩
            exact ⟨v, rfl⟩
          · rintro ⟨v, hv⟩
            injection hv with h1 h2
            exact ⟨h1, v, h2⟩

lemma containsSub_iff : ∀ (s pat : PyStr), containsSub s pat = true ↔ ∃ u v, s = u ++ pat ++ v := by
  intro s pat
  induction s with
  | nil =>
      cases pat with
      | nil => simp [containsSub]
      | cons p ps => simp [containsSub]
  | cons c t ih =>
      simp only [containsSub, Bool.or_eq_true, startsWithL_iff, ih]
      constructor
      · rintro (⟨v, hv⟩ | ⟨u, v, rfl⟩)
        · exact ⟨[], v, by simpa using hv⟩
        · exact ⟨c :: u, v, rfl⟩
      · rintro ⟨u, v, hv⟩
        cases u with
        | nil =>
            left
            exact ⟨v, by simpa using hv⟩
        | cons x u' =>
            right
            injection hv with h1 h2
            exact ⟨u', v, h2⟩

/-- Boundary condition on the left of a `\b`-delimited occurrence: the last
character of the prefix is not a word character (`b` records the word-status
of the character just before the scanned suffix). -/
def prevOk (b : Bool) (u : PyStr) : Prop :=
  match u.getLast? with
  | none => b = false
  | some d => isPyWord d = false

/-- Boundary condition on the right of a `\b`-delimited occurrence: the
following character, when present, is not a word character. -/
def nextOk (v : PyStr) : Prop :=
  ∀ d, v.head? = some d → isPyWord d = false

lemma prevOk_cons (b : Bool) (c : Char) (u : PyStr) :
    prevOk b (c :: u) ↔ prevOk (isPyWord c) u := by
  cases u with
  | nil => simp [prevOk]
  | cons y ys =>
      unfold prevOk
      rw [List.getLast?_cons_cons]
      cases h : (y :: ys).getLast? with
      | none =>
          rw [List.getLast?_eq_none_iff] at h
          exact List.noConfusion h
      | some d => rfl

lemma afterE_iff (rest : PyStr) :
    afterE rest = true ↔ ∃ r2, rest = 'T' :: r2 ∧ nextOk r2 := by
  cases rest with
  | nil =>
      simp only [afterE, Bool.false_eq_true, false_iff]
      rintro ⟨r2, h, -⟩
      exact List.noConfusion h
  | cons d r2 =>
      have hd : afterE (d :: r2) = true ↔ d = 'T' ∧ nextOk r2 := by
        cases r2 with
        | nil => simp [afterE, nextOk]
        | cons e r3 => simp [afterE, nextOk]
      rw [hd]
      constructor
      · rintro ⟨rfl, h⟩
        exact ⟨r2, rfl, h⟩
      · rintro ⟨r2', h, hn⟩
        injection h with h1 h2
        subst h1
        subst h2
        exact ⟨rfl, hn⟩

lemma hasETAux_iff : ∀ (s : PyStr) (b : Bool),
    hasETAux b s = true ↔
      ∃ u v, s = u ++ ['E', 'T'] ++ v ∧ prevOk b u ∧ nextOk v := by
  intro s
  induction s with
  | nil =>
      intro b
      simp only [hasETAux, Bool.false_eq_true, false_iff]
      rintro ⟨u, v, hv, -, -⟩
      cases u <;> simp at hv
  | cons c rest ih =>
      intro b
      simp only [hasETAux, Bool.or_eq_true, Bool.and_eq_true, decide_eq_true_eq,
        Bool.not_eq_eq_eq_not, Bool.not_true, ih]
      constructor
      · rintro (⟨⟨rfl, hb⟩, ht⟩ | ⟨u', v', rfl, hprev, hnext⟩)
        · obtain ⟨r2, rfl, hn⟩ := (afterE_iff rest).1 ht
          exact ⟨[], r2, rfl, by simp [prevOk, hb], hn⟩
        · exact ⟨c :: u', v', rfl, (prevOk_cons b c u').2 hprev, hnext⟩
      · rintro ⟨u, v, hv, hprev, hnext⟩
        cases u with
        | nil =>
            left
            simp only [List.nil_append, List.cons_append] at hv
            injection hv with h1 h2
            subst h1
            refine ⟨⟨rfl, by simpa [prevOk] using hprev⟩, ?_⟩
            rw [(afterE_iff rest)]
            exact ⟨v, by simpa using h2, hnext⟩
        | cons x u' =>
            right
            injection hv with h1 h2
            subst h1
            exact ⟨u', v, h2, (prevOk_cons b c u').1 hprev, hnext⟩

lemma hasET_iff (s : PyStr) :
    hasET s = true ↔
      ∃ u v, s = u ++ ['E', 'T'] ++ v ∧
        (∀ d, u.getLast? = some d → isPyWord d = false) ∧
        (∀ d, v.head? = some d → isPyWord d = false) := by
  rw [hasET, hasETAux_iff]
  constructor
  · rintro ⟨u, v, rfl, hprev, hnext⟩
    refine ⟨u, v, rfl, ?_, hnext⟩
    intro d hd
    unfold prevOk at hprev
    rw [hd] at hprev
    exact hprev
  · rintro ⟨u, v, rfl, hprev, hnext⟩
    refine ⟨u, v, rfl, ?_, hnext⟩
    unfold prevOk
    cases hu : u.getLast? with
    | none => rfl
    | some d => exact hprev d hu

/-- Concrete page text containing the markers named by claim C2 ("Order ID:
TT999" and the sender block) and nothing else. -/
def ftC2 : PyStr := "Order ID: TT999\nNgười gửi\nMyShop\n123 Nguyen Trai".toList

/-- Counterexample to C2: a page whose text contains "Order ID: TT999" and
"Người gửi\nMyShop\n123 Nguyen Trai" on which the TikTok–J&T recognizer's
can_handle is nevertheless false (it keys on "J&T"/"J & T" plus a standalone
"ET", not on "Order ID:") and the whole chain produces no PageResult. -/
theorem C2_counterexample :
    containsSub ftC2 "Order ID: TT999".toList = true ∧
    containsSub ftC2 "Người gửi\nMyShop\n123 Nguyen Trai".toList = true ∧
    TikTokJTParser.can_handle ftC2 [] = false ∧
    dispatch_page 1 ftC2 [] = none := by
  refine ⟨by decide, by decide, by decide, by decide⟩

/-- Concrete page text carrying the C2 markers together with the markers the
code actually requires ("J&T" and a standalone "ET"). -/
def ftC2jt : PyStr :=
  "J&T ET\nOrder ID: TT999\nNgười gửi\nMyShop\n123 Nguyen Trai".toList

/-- C2 (amended): the TikTok–J&T recognizer's can_handle holds exactly when
the page text contains "J&T" or "J & T" and contains "ET" delimited by word
boundaries; and on a page carrying "Order ID: TT999", the sender block
"Người gửi\nMyShop\n123 Nguyen Trai" and those carrier markers, the chain
produces a PageResult with order_sn "TT999", shop_name "MyShop", platform
"tiktok" and delivery_method "JT". -/
theorem C2_amended_tiktok_markers :
    (∀ (ft : PyStr) (ws : List Word),
      TikTokJTParser.can_handle ft ws = true ↔
        ((∃ u v, ft = u ++ "J&T".toList ++ v) ∨
         (∃ u v, ft = u ++ "J & T".toList ++ v)) ∧
        (∃ u v, ft = u ++ "ET".toList ++ v ∧
          (∀ d, u.getLast? = some d → isPyWord d = false) ∧
          (∀ d, v.head? = some d → isPyWord d = false))) ∧
    dispatch_page 1 ftC2jt [] =
      some ⟨1, some "TT999".toList, some "MyShop".toList, "tiktok".toList,
        "JT".toList, "J&T Express".toList⟩ := by
  constructor
  · intro ft ws
    show tiktokJT_can_handle ft ws = true ↔ _
    unfold tiktokJT_can_handle
    rw [Bool.and_eq_true, Bool.or_eq_true, containsSub_iff, containsSub_iff, hasET_iff]
    exact Iff.rfl
  · decide

deriving instance DecidableEq for Except

/-- Concrete page of claim C3's scenario: text "Mã vận đơn: GY9988" (carrier
label present with a GHN value) and no order label; extraction succeeds. -/
def pageGY : Page := ⟨Except.ok (some "Mã vận đơn: GY9988".toList), Except.ok []⟩

/-- C3 (code behaviour at the failing input): on a single-page document whose
page carries the GHN delivery label "Mã vận đơn: GY9988" but no order label,
the carrier is identified (the delivery-code pattern captures "GY9988") and
the loop body produces no row, so the scan returns an empty row list; the
function has no diagnostics output at all, so the page is silently dropped. -/
theorem C3_carrier_match_without_order_dropped :
    searchCap deliveryPat "Mã vận đơn: GY9988".toList = some "GY9988".toList ∧
    scanPageCore none pageGY = Except.ok (some "GHN".toList, none) ∧
    scan_pdf_for_orders [pageGY] = Except.ok [] := by
  refine ⟨by decide, by decide, by decide⟩

/-- Concrete page whose body yields a row (SPX label and order label). -/
def pageRowSPX : Page :=
  ⟨Except.ok (some "Mã vận đơn: SPX1 Mã đơn hàng: OD1".toList), Except.ok []⟩

/-- Concrete page whose text extraction throws. -/
def pageBad : Page := ⟨Except.error PyExc.pageExtract, Except.ok []⟩

/-- Concrete page whose body yields a row (TikTok order label, J&T marker). -/
def pageRowJT : Page := ⟨Except.ok (some "Order ID: OD2 J&T".toList), Except.ok []⟩

/-- Counterexample to C4: in a three-page document whose middle page's text
extraction throws, the scan does not record a diagnostic and continue — it
propagates the exception, aborting the whole document scan and discarding
even the first page's recognized row. -/
theorem C4_counterexample :
    scan_pdf_for_orders [pageRowSPX, pageBad, pageRowJT] =
      Except.error PyExc.pageExtract := by
  decide

lemma scanPageCore_text_error (pg : Page) (e : PyExc)
    (h : pg.extract_text = Except.error e) :
    ∀ dm0, scanPageCore dm0 pg = Except.error e := by
  intro dm0
  unfold scanPageCore
  rw [h]
  rfl

lemma scanGo_append_error (p : Page) (qs : List Page) (e : PyExc)
    (hp : ∀ dm0, scanPageCore dm0 p = Except.error e) :
    ∀ (ps : List Page) (i : Nat) (dm0 : Option PyStr),
      (∀ q ∈ ps, ∀ dm, ∃ v, scanPageCore dm q = Except.ok v) →
      scanGo i dm0 (ps ++ p :: qs) = Except.error e := by
  intro ps
  induction ps with
  | nil =>
      intro i dm0 _
      simp [scanGo, hp dm0]
  | cons q ps ih =>
      intro i dm0 h
      obtain ⟨v, hv⟩ := h q (by simp) dm0
      obtain ⟨dm1, row⟩ := v
      have hrest := ih (i + 1) dm1 (fun q' hq' => h q' (by simp [hq']))
      cases row with
      | none => simp [scanGo, hv, hrest]
      | some c => simp [scanGo, hv, hrest, Except.map]

/-- C4 (amended): when the text extraction of one page throws and every page
before it is processed without an exception (whatever the state of the
loop-carried delivery_method local on entering it), scan_pdf_for_orders
propagates the exception: the whole document scan aborts with that error, so
no diagnostic is recorded, earlier rows are discarded and later pages are
never scanned. -/
theorem C4_amended_extraction_error_aborts
    (ps : List Page) (p : Page) (qs : List Page) (e : PyExc)
    (h1 : ∀ q ∈ ps, ∀ dm, ∃ v, scanPageCore dm q = Except.ok v)
    (h2 : p.extract_text = Except.error e) :
    scan_pdf_for_orders (ps ++ p :: qs) = Except.error e :=
  scanGo_append_error p qs e (scanPageCore_text_error p e h2) ps 1 none h1

/-- Concrete page with empty extracted text (processed without exception). -/
def pagePlain : Page := ⟨Except.ok (some "x".toList), Except.ok []⟩

/-- Concrete page with no extractable text (processed without exception). -/
def pageNoText : Page := ⟨Except.ok none, Except.ok []⟩

/-- Witness for C4 (amended): a concrete three-page document whose middle
page's extraction throws. -/
theorem C4_amended_extraction_error_aborts_witness :
    scan_pdf_for_orders [pagePlain, pageBad, pageNoText] =
      Except.error PyExc.pageExtract :=
  C4_amended_extraction_error_aborts [pagePlain] pageBad [pageNoText]
    PyExc.pageExtract
    (by
      intro q hq dm
      simp only [List.mem_singleton] at hq
      subst hq
      exact ⟨(some "HT".toList, none), rfl⟩)
    rfl

/-- Concrete page of claim C10: the delivery label captures "ABC123", which
starts with none of "SPX", "GY", "SHOPEEVTPVN", "EK". -/
def pageUB : Page := ⟨Except.ok (some "Mã vận đơn: ABC123".toList), Except.ok []⟩

/-- Sanity check of the loop-carried local: when a page earlier in the
document has already assigned delivery_method (here "SPX" on page 1), a later
page matching the delivery label with a value outside every if/elif prefix
does not raise — the if/elif chain leaves the stale value in place, line 68
reads it, the page yields no row (its order label is absent), and the scan
continues; the document produces the rows of pages 1 and 3. -/
lemma scan_stale_delivery_method_reused :
    scan_pdf_for_orders [pageRowSPX, pageUB, pageRowJT] =
      Except.ok
        [⟨1, "OD1".toList, "UNKNOWN_SHOP".toList, none, "SPX".toList, "SPX".toList⟩,
         ⟨3, "OD2".toList, "UNKNOWN_SHOP".toList, none, "JT".toList, "JT".toList⟩] := by
  decide

/-- C10: there is a page input on which the scanner raises an unhandled
UnboundLocalError that aborts the entire scan: a page whose text matches the
delivery-code label with a captured value starting with none of "SPX", "GY",
"SHOPEEVTPVN", "EK", reached while the delivery_method local has never been
assigned (here: as the first page).  The if/elif chain assigns nothing, the
subsequent comparison reads the unassigned local and raises, and whatever
pages follow are never scanned. -/
theorem C10_unbound_local_aborts :
    searchCap deliveryPat "Mã vận đơn: ABC123".toList = some "ABC123".toList ∧
    scanPageCore none pageUB = Except.error PyExc.unboundLocal ∧
    ∀ rest : List Page,
      scan_pdf_for_orders (pageUB :: rest) = Except.error PyExc.unboundLocal := by
  refine ⟨by decide, by decide, fun rest => ?_⟩
  have h : scanPageCore none pageUB = Except.error PyExc.unboundLocal := by decide
  show scanGo 1 none (pageUB :: rest) = Except.error PyExc.unboundLocal
  simp [scanGo, h]
